import Mathlib

/-!
Verification of the client-side resource synchronization engine of the
intuitivus-ia repository.  The definitions below are shallow embeddings of
the TypeScript selectors, React Query configuration and mutation callbacks
found under src/hooks, src/providers, src/services and src/stores; each
definition names the source symbol it translates.  Machinery that lives in
the React Query library rather than in the repository (the retry loop, the
stale-while-revalidate fetch coordinator, the polling scheduler) is modelled
from the specification and marked as such in its doc comment.
-/

namespace Intuitivus

/-! ## Campaign metrics selector (src/hooks/useOptimizedStore.ts, useCampaignMetrics) -/

/-- Campaign record, the fields read by useCampaignMetrics.  Numeric fields
are modelled as rationals. -/
structure Campaign where
  status : String
  budget : ℚ
  spent : ℚ
  impressions : ℚ
  clicks : ℚ
  conversions : ℚ
  deriving Repr, DecidableEq

/-- Accumulator of the reduce inside useCampaignMetrics. -/
structure MetricTotals where
  totalBudget : ℚ
  totalSpent : ℚ
  totalImpressions : ℚ
  totalClicks : ℚ
  totalConversions : ℚ
  deriving Repr, DecidableEq

/-- Result shape of useCampaignMetrics. -/
structure CampaignMetrics where
  totalBudget : ℚ
  totalSpent : ℚ
  totalImpressions : ℚ
  totalClicks : ℚ
  totalConversions : ℚ
  activeCampaigns : ℕ
  avgCTR : ℚ
  avgCVR : ℚ
  budgetUtilization : ℚ
  deriving Repr, DecidableEq

/-- Body of the reduce callback in useCampaignMetrics. -/
def metricsStep (acc : MetricTotals) (campaign : Campaign) : MetricTotals :=
  { totalBudget := acc.totalBudget + campaign.budget
    totalSpent := acc.totalSpent + campaign.spent
    totalImpressions := acc.totalImpressions + campaign.impressions
    totalClicks := acc.totalClicks + campaign.clicks
    totalConversions := acc.totalConversions + campaign.conversions }

/-- Translation of useCampaignMetrics from src/hooks/useOptimizedStore.ts:
filter state.campaigns to the active ones, reduce the five totals, then
compute the guarded ratios. -/
def useCampaignMetrics (campaigns : List Campaign) : CampaignMetrics :=
  let activeCampaigns := campaigns.filter (fun c => c.status == "active")
  let m := activeCampaigns.foldl metricsStep ⟨0, 0, 0, 0, 0⟩
  { totalBudget := m.totalBudget
    totalSpent := m.totalSpent
    totalImpressions := m.totalImpressions
    totalClicks := m.totalClicks
    totalConversions := m.totalConversions
    activeCampaigns := activeCampaigns.length
    avgCTR := if m.totalImpressions > 0 then m.totalClicks / m.totalImpressions * 100 else 0
    avgCVR := if m.totalClicks > 0 then m.totalConversions / m.totalClicks * 100 else 0
    budgetUtilization := if m.totalBudget > 0 then m.totalSpent / m.totalBudget * 100 else 0 }

/-! ## Filtered-tasks selector (src/hooks/useOptimizedStore.ts, useFilteredTasks) -/

/-- Task record, the fields read by useFilteredTasks.  The createdAt Date is
modelled as an integer timestamp. -/
structure Task where
  id : String
  agentId : String
  status : String
  createdAt : Int
  deriving Repr, DecidableEq

/-- Date range filter; the timestamps of the start and end dates. -/
structure DateRange where
  startDate : Int
  endDate : Int
  deriving Repr, DecidableEq

/-- Task filters read by useFilteredTasks.  A JavaScript falsy filter value
(undefined or the empty string) is modelled as none. -/
structure TaskFilters where
  status : Option String
  agentId : Option String
  dateRange : Option DateRange
  deriving Repr, DecidableEq

/-- Pagination slice of the app-store state. -/
structure TasksPagination where
  page : ℕ
  pageSize : ℕ
  deriving Repr, DecidableEq

/-- Result shape of useFilteredTasks. -/
structure PaginatedTasks where
  tasks : List Task
  total : ℕ
  hasNext : Bool
  hasPrevious : Bool
  deriving Repr, DecidableEq

/-- The filter predicate inside useFilteredTasks: each early return false of
the source becomes a conjunct. -/
def taskMatchesFilters (filters : TaskFilters) (task : Task) : Bool :=
  (match filters.status with
    | some s => task.status == s
    | none => true) &&
  (match filters.agentId with
    | some a => task.agentId == a
    | none => true) &&
  (match filters.dateRange with
    | some r => !(task.createdAt < r.startDate || task.createdAt > r.endDate)
    | none => true)

/-- Translation of useFilteredTasks from src/hooks/useOptimizedStore.ts:
filter, then slice(startIndex, endIndex) with startIndex = (page - 1) *
pageSize and endIndex = startIndex + pageSize. -/
def useFilteredTasks (tasks : List Task) (filters : TaskFilters)
    (pg : TasksPagination) : PaginatedTasks :=
  let filteredTasks := tasks.filter (taskMatchesFilters filters)
  let startIndex := (pg.page - 1) * pg.pageSize
  let endIndex := startIndex + pg.pageSize
  let paginatedTasks := (filteredTasks.drop startIndex).take pg.pageSize
  { tasks := paginatedTasks
    total := filteredTasks.length
    hasNext := decide (endIndex < filteredTasks.length)
    hasPrevious := decide (1 < pg.page) }

/-! ## Theorems for the selectors -/

/-- C9: for every application state, the campaign-metrics computation never
divides by zero: when the aggregated totalImpressions is 0 the returned
avgCTR is 0, when totalClicks is 0 avgCVR is 0, and when totalBudget is 0
budgetUtilization is 0; and only campaigns with status active contribute to
the aggregates (filtering to the active campaigns first leaves the result
unchanged). -/
theorem useCampaignMetrics_guards (campaigns : List Campaign) :
    ((useCampaignMetrics campaigns).totalImpressions = 0 →
      (useCampaignMetrics campaigns).avgCTR = 0) ∧
    ((useCampaignMetrics campaigns).totalClicks = 0 →
      (useCampaignMetrics campaigns).avgCVR = 0) ∧
    ((useCampaignMetrics campaigns).totalBudget = 0 →
      (useCampaignMetrics campaigns).budgetUtilization = 0) ∧
    useCampaignMetrics campaigns =
      useCampaignMetrics (campaigns.filter (fun c => c.status == "active")) := by
  refine ⟨?_, ?_, ?_, ?_⟩
  · intro h
    simp only [useCampaignMetrics] at h ⊢
    rw [h]
    simp
  · intro h
    simp only [useCampaignMetrics] at h ⊢
    rw [h]
    simp
  · intro h
    simp only [useCampaignMetrics] at h ⊢
    rw [h]
    simp
  · simp only [useCampaignMetrics, List.filter_filter, Bool.and_self]

/-- Witness for C9 at a concrete state: a single active campaign with all
counters zero has totalImpressions 0 and avgCTR 0. -/
theorem useCampaignMetrics_guards_witness :
    (useCampaignMetrics [⟨"active", 0, 0, 0, 0, 0⟩]).totalImpressions = 0 ∧
    (useCampaignMetrics [⟨"active", 0, 0, 0, 0, 0⟩]).avgCTR = 0 :=
  ⟨by simp [useCampaignMetrics, metricsStep],
    (useCampaignMetrics_guards [⟨"active", 0, 0, 0, 0, 0⟩]).1
      (by simp [useCampaignMetrics, metricsStep])⟩

/-- C10: for every application state with page at least 1 (pageSize is a
natural number, hence at least 0), useFilteredTasks returns at most pageSize
tasks, reports total equal to the number of tasks passing the filters,
reports hasNext true iff page * pageSize is strictly below that total, and
reports hasPrevious true iff page exceeds 1. -/
theorem useFilteredTasks_pagination (tasks : List Task) (filters : TaskFilters)
    (pg : TasksPagination) (h : 1 ≤ pg.page) :
    (useFilteredTasks tasks filters pg).tasks.length ≤ pg.pageSize ∧
    (useFilteredTasks tasks filters pg).total =
      (tasks.filter (taskMatchesFilters filters)).length ∧
    ((useFilteredTasks tasks filters pg).hasNext = true ↔
      pg.page * pg.pageSize < (tasks.filter (taskMatchesFilters filters)).length) ∧
    ((useFilteredTasks tasks filters pg).hasPrevious = true ↔ 1 < pg.page) := by
  refine ⟨?_, rfl, ?_, ?_⟩
  · simp [useFilteredTasks]
  · have hidx : (pg.page - 1) * pg.pageSize + pg.pageSize = pg.page * pg.pageSize := by
      obtain ⟨n, hn⟩ := Nat.exists_eq_add_of_le h
      rw [hn, Nat.add_sub_cancel_left, Nat.add_mul, Nat.one_mul, Nat.add_comm]
    simp [useFilteredTasks, hidx]
  · simp [useFilteredTasks]

/-- Witness for C10 at a concrete state: two matching tasks, page 2 of size
1; the page holds one task, total is 2, hasNext is false, hasPrevious true. -/
theorem useFilteredTasks_pagination_witness :
    1 ≤ (2 : ℕ) ∧
    ((useFilteredTasks [⟨"1", "a", "running", 0⟩, ⟨"2", "a", "running", 5⟩]
        ⟨none, none, none⟩ ⟨2, 1⟩).tasks.length ≤ 1 ∧
      (useFilteredTasks [⟨"1", "a", "running", 0⟩, ⟨"2", "a", "running", 5⟩]
        ⟨none, none, none⟩ ⟨2, 1⟩).total =
        ([⟨"1", "a", "running", 0⟩, ⟨"2", "a", "running", 5⟩].filter
          (taskMatchesFilters ⟨none, none, none⟩)).length ∧
      ((useFilteredTasks [⟨"1", "a", "running", 0⟩, ⟨"2", "a", "running", 5⟩]
        ⟨none, none, none⟩ ⟨2, 1⟩).hasNext = true ↔
        2 * 1 < ([⟨"1", "a", "running", 0⟩, ⟨"2", "a", "running", 5⟩].filter
          (taskMatchesFilters ⟨none, none, none⟩)).length) ∧
      ((useFilteredTasks [⟨"1", "a", "running", 0⟩, ⟨"2", "a", "running", 5⟩]
        ⟨none, none, none⟩ ⟨2, 1⟩).hasPrevious = true ↔ 1 < 2)) :=
  ⟨by decide,
    useFilteredTasks_pagination [⟨"1", "a", "running", 0⟩, ⟨"2", "a", "running", 5⟩]
      ⟨none, none, none⟩ ⟨2, 1⟩ (by decide)⟩

/-! ## Cancellation scope (src/hooks/useAbortController.ts)

A holder is one useAbortController instance: the abortControllerRef cell
plus the set of AbortController objects it ever created.  A controller is
represented by its aborted flag (true means aborted).  The list is held
newest first; the source only ever makes the newest controller current, so
the current controller of a holder with an active ref is the head. -/

/-- Abort the most recently created controller, as abortControllerRef
.current.abort does for the current controller. -/
def markHead : List Bool → List Bool
  | [] => []
  | _ :: rest => true :: rest

/-- The operations a component can perform on its useAbortController
holder. -/
inductive HolderOp
  | createController
  | getSignal
  | abortCurrent
  | unmount
  deriving Repr, DecidableEq

/-- State of one useAbortController holder: flags of the controllers it
created (newest first) and whether abortControllerRef.current is non-null. -/
structure HolderState where
  controllers : List Bool
  refActive : Bool
  deriving Repr, DecidableEq

/-- Initial holder state: useRef(null), no controller created yet. -/
def initHolder : HolderState := ⟨[], false⟩

/-- Translation of the four callbacks of useAbortController:
createController aborts the current controller if one exists and then
installs a fresh one; getSignal installs a fresh controller only when the
ref is null; abort aborts the current controller and nulls the ref; the
unmount cleanup aborts the current controller without nulling the ref. -/
def stepHolder (s : HolderState) : HolderOp → HolderState
  | .createController =>
      if s.refActive then ⟨false :: markHead s.controllers, true⟩
      else ⟨false :: s.controllers, true⟩
  | .getSignal =>
      if s.refActive then s else ⟨false :: s.controllers, true⟩
  | .abortCurrent =>
      if s.refActive then ⟨markHead s.controllers, false⟩ else s
  | .unmount =>
      if s.refActive then ⟨markHead s.controllers, true⟩ else s

/-- Run a sequence of operations from the initial holder state. -/
def runHolder (ops : List HolderOp) : HolderState :=
  ops.foldl stepHolder initHolder

/-- Number of controllers of the holder that are not aborted. -/
def liveCount (s : HolderState) : ℕ := s.controllers.count false

/-- Every controller in the list is aborted. -/
def allAborted (l : List Bool) : Prop := ∀ b ∈ l, b = true

/-- Holder invariant: every controller but the newest is aborted, and when
the ref is null the newest is aborted as well. -/
def GoodHolder (s : HolderState) : Prop :=
  allAborted s.controllers.tail ∧ (s.refActive = false → allAborted s.controllers)

theorem goodHolder_init : GoodHolder initHolder := by
  constructor <;> simp [initHolder, allAborted]

theorem allAborted_markHead (l : List Bool) (h : allAborted l.tail) :
    allAborted (markHead l) := by
  cases l with
  | nil => simp [markHead, allAborted]
  | cons b rest =>
      intro x hx
      cases hx with
      | head => rfl
      | tail _ hx => exact h x hx

theorem allAborted_tail (l : List Bool) (h : allAborted l) :
    allAborted l.tail :=
  fun b hb => h b (List.mem_of_mem_tail hb)

theorem goodHolder_step (s : HolderState) (op : HolderOp) (h : GoodHolder s) :
    GoodHolder (stepHolder s op) := by
  obtain ⟨htail, hnull⟩ := h
  cases op with
  | createController =>
      by_cases hr : s.refActive
      · exact ⟨by simpa [stepHolder, hr] using allAborted_markHead _ htail,
          by simp [stepHolder, hr]⟩
      · refine ⟨?_, by simp [stepHolder, hr]⟩
        simpa [stepHolder, hr] using hnull (by simpa using hr)
  | getSignal =>
      by_cases hr : s.refActive
      · simpa [stepHolder, hr] using ⟨htail, hnull⟩
      · refine ⟨?_, by simp [stepHolder, hr]⟩
        simpa [stepHolder, hr] using hnull (by simpa using hr)
  | abortCurrent =>
      by_cases hr : s.refActive
      · exact ⟨by
          simpa [stepHolder, hr] using allAborted_tail _ (allAborted_markHead _ htail),
          by simpa [stepHolder, hr] using allAborted_markHead _ htail⟩
      · simpa [stepHolder, hr] using ⟨htail, hnull⟩
  | unmount =>
      by_cases hr : s.refActive
      · exact ⟨by
          simpa [stepHolder, hr] using allAborted_tail _ (allAborted_markHead _ htail),
          by simp [stepHolder, hr]⟩
      · simpa [stepHolder, hr] using ⟨htail, hnull⟩

theorem goodHolder_foldl (ops : List HolderOp) (s : HolderState)
    (h : GoodHolder s) : GoodHolder (ops.foldl stepHolder s) := by
  induction ops generalizing s with
  | nil => exact h
  | cons op rest ih => exact ih _ (goodHolder_step s op h)

theorem goodHolder_run (ops : List HolderOp) : GoodHolder (runHolder ops) :=
  goodHolder_foldl ops initHolder goodHolder_init

theorem count_false_eq_zero (l : List Bool) (h : allAborted l) :
    l.count false = 0 := by
  rw [List.count_eq_zero]
  intro hmem
  exact Bool.false_ne_true (h false hmem)

theorem liveCount_le_one (s : HolderState) (h : GoodHolder s) :
    liveCount s ≤ 1 := by
  obtain ⟨htail, -⟩ := h
  unfold liveCount
  cases hc : s.controllers with
  | nil => simp
  | cons b rest =>
      have : rest.count false = 0 := by
        apply count_false_eq_zero
        intro x hx
        exact htail x (by simp [hc, hx])
      simp [List.count_cons, this]
      split <;> simp

theorem liveCount_step_unmount (s : HolderState) (h : GoodHolder s) :
    liveCount (stepHolder s .unmount) = 0 := by
  obtain ⟨htail, hnull⟩ := h
  by_cases hr : s.refActive
  · simp only [stepHolder, hr, if_pos]
    exact count_false_eq_zero _ (allAborted_markHead _ htail)
  · simp only [stepHolder, hr, if_neg, Bool.false_eq_true, not_false_eq_true]
    exact count_false_eq_zero _ (hnull (by simpa using hr))

theorem liveCount_step_create (s : HolderState) (h : GoodHolder s) :
    liveCount (stepHolder s .createController) = 1 := by
  obtain ⟨htail, hnull⟩ := h
  by_cases hr : s.refActive
  · simp only [stepHolder, hr, if_pos, liveCount, List.count_cons]
    rw [count_false_eq_zero _ (allAborted_markHead _ htail)]
    simp
  · simp only [stepHolder, hr, if_neg, Bool.false_eq_true, not_false_eq_true,
      liveCount, List.count_cons]
    rw [count_false_eq_zero _ (hnull (by simpa using hr))]
    simp

/-- C8: within one useAbortController holder, after any sequence of
operations at most one controller is not aborted; appending an unmount
leaves no live controller (the cleanup aborts the current one); and
appending a createController leaves exactly one live controller (the fresh
one: the previously current controller was aborted first). -/
theorem useAbortController_at_most_one_live (ops : List HolderOp) :
    liveCount (runHolder ops) ≤ 1 ∧
    liveCount (runHolder (ops ++ [HolderOp.unmount])) = 0 ∧
    liveCount (runHolder (ops ++ [HolderOp.createController])) = 1 := by
  have hgood := goodHolder_run ops
  refine ⟨liveCount_le_one _ hgood, ?_, ?_⟩
  · rw [runHolder, List.foldl_append]
    exact liveCount_step_unmount _ hgood
  · rw [runHolder, List.foldl_append]
    exact liveCount_step_create _ hgood

/-! ## Per-key fetch deduplication and supersession

The data fetching of the repository goes through useQuery, whose fetch
coordinator is React Query library code absent from src; the per-key
machinery below is therefore modelled from the spec (section 3,
InFlightRequest, and section 4.2 step 1).  A query key is its canonical
string. -/

/-- Modelled from the spec: the fetches ever started for one query key,
newest first; true marks a fetch that is no longer live (cancelled or
settled).  The InFlightRequest of the spec is the head when live. -/
structure KeyFetchState where
  fetches : List Bool
  deriving Repr, DecidableEq

/-- Modelled from the spec: the events of the fetch coordinator for one
key: a fetch request (start), supersession by a newer request, and
settlement of the in-flight fetch. -/
inductive FetchOp
  | start
  | supersede
  | settle
  deriving Repr, DecidableEq

/-- Initially no fetch was ever started for the key. -/
def initKeyFetch : KeyFetchState := ⟨[]⟩

/-- Whether the key currently has a live in-flight fetch. -/
def isInFlight (s : KeyFetchState) : Bool :=
  match s.fetches with
  | false :: _ => true
  | _ => false

/-- Modelled from the spec: a start while a fetch is in flight joins the
existing in-flight request and starts nothing (spec 4.2 step 1); a start
with no live fetch begins a new one; a supersession aborts the previous
request and replaces it with a new one (spec section 3); a settlement ends
the in-flight fetch. -/
def stepKeyFetch (s : KeyFetchState) : FetchOp → KeyFetchState
  | .start => if isInFlight s then s else ⟨false :: s.fetches⟩
  | .supersede => ⟨false :: markHead s.fetches⟩
  | .settle => ⟨markHead s.fetches⟩

/-- Run a sequence of keyed coordinator events from the initial state;
events on one key leave every other key untouched. -/
def runKeyedFetches (ops : List (String × FetchOp)) : String → KeyFetchState :=
  ops.foldl
    (fun s op => fun k => if k == op.1 then stepKeyFetch (s k) op.2 else s k)
    (fun _ => initKeyFetch)

/-- Number of live fetches recorded for the key. -/
def liveFetches (s : KeyFetchState) : ℕ := s.fetches.count false

/-- Coordinator invariant: every fetch but the newest is dead. -/
def GoodKeyFetch (s : KeyFetchState) : Prop := allAborted s.fetches.tail

theorem goodKeyFetch_init : GoodKeyFetch initKeyFetch := by
  intro b hb
  simp [initKeyFetch] at hb

theorem goodKeyFetch_step (s : KeyFetchState) (op : FetchOp)
    (h : GoodKeyFetch s) : GoodKeyFetch (stepKeyFetch s op) := by
  cases op with
  | start =>
      cases hf : isInFlight s with
      | true => simpa [stepKeyFetch, hf] using h
      | false =>
          simp only [stepKeyFetch, hf, Bool.false_eq_true, if_neg,
            not_false_eq_true]
          intro b hb
          cases hc : s.fetches with
          | nil => simp [GoodKeyFetch, hc] at hb
          | cons b0 rest =>
              cases b0 with
              | false => simp [isInFlight, hc] at hf
              | true =>
                  rcases (by simpa [hc] using hb : b = true ∨ b ∈ rest) with
                    hb1 | hb2
                  · exact hb1
                  · exact h b (by simpa [hc] using hb2)
  | supersede =>
      intro b hb
      exact allAborted_markHead _ h b (by simpa [stepKeyFetch] using hb)
  | settle =>
      intro b hb
      exact allAborted_markHead _ h b
        (List.mem_of_mem_tail (by simpa [stepKeyFetch] using hb))

theorem goodKeyFetch_run (ops : List (String × FetchOp)) (k : String) :
    GoodKeyFetch (runKeyedFetches ops k) := by
  suffices hgen : ∀ (s : String → KeyFetchState), (∀ j, GoodKeyFetch (s j)) →
      ∀ j, GoodKeyFetch ((ops.foldl
        (fun s op => fun k => if k == op.1 then stepKeyFetch (s k) op.2
          else s k) s) j) by
    exact hgen (fun _ => initKeyFetch) (fun _ => goodKeyFetch_init) k
  induction ops with
  | nil => exact fun s h j => h j
  | cons op rest ih =>
      intro s h j
      refine ih _ (fun i => ?_) j
      by_cases hi : (i == op.1) = true
      · simpa [hi] using goodKeyFetch_step _ _ (h i)
      · simpa [hi] using h i

theorem liveFetches_le_one (s : KeyFetchState) (h : GoodKeyFetch s) :
    liveFetches s ≤ 1 := by
  unfold liveFetches
  cases hc : s.fetches with
  | nil => simp
  | cons b rest =>
      have hz : rest.count false = 0 := by
        apply count_false_eq_zero
        intro x hx
        exact h x (by simp [GoodKeyFetch, hc, hx])
      simp [List.count_cons, hz]
      split <;> simp

/-- C5: for every query key, at most one non-cancelled fetch is in flight
after any sequence of coordinator events; a start while a fetch is in
flight joins it and changes nothing; and a supersession leaves exactly one
live fetch, the replacement of the aborted one. -/
theorem at_most_one_in_flight_per_key :
    (∀ (ops : List (String × FetchOp)) (k : String),
      liveFetches (runKeyedFetches ops k) ≤ 1) ∧
    (∀ s : KeyFetchState, isInFlight s = true → stepKeyFetch s .start = s) ∧
    (∀ (ops : List (String × FetchOp)) (k : String),
      liveFetches (stepKeyFetch (runKeyedFetches ops k) .supersede) = 1) := by
  refine ⟨fun ops k => liveFetches_le_one _ (goodKeyFetch_run ops k),
    fun s hs => by simp [stepKeyFetch, hs], fun ops k => ?_⟩
  have hgood := goodKeyFetch_run ops k
  unfold liveFetches stepKeyFetch
  rw [List.count_cons]
  rw [count_false_eq_zero _ (allAborted_markHead _ hgood)]
  simp

/-- Witness for C5 at a concrete state: with one live in-flight fetch for
the key, a new start joins it and the state is unchanged. -/
theorem at_most_one_in_flight_per_key_witness :
    stepKeyFetch ⟨[false]⟩ .start = ⟨[false]⟩ :=
  at_most_one_in_flight_per_key.2.1 ⟨[false]⟩ rfl

/-! ## Retry configuration (src/providers/AppProvider.tsx)

Errors thrown by the ApiService carry a numeric status; a network error is
thrown with status 0 (src/services/api.ts), an HTTP failure with the
response status. -/

/-- Translation of the retry predicate of queryClient.defaultOptions
.queries.retry in src/providers/AppProvider.tsx: no retry when the error
status is a 4xx, otherwise retry while failureCount is below 3.  The same
predicate appears verbatim on useOptimizedDashboardStats. -/
def queriesRetry (failureCount status : ℕ) : Bool :=
  if 400 ≤ status ∧ status < 500 then false else failureCount < 3

/-- Translation of queryClient.defaultOptions.mutations.retry in
src/providers/AppProvider.tsx: the numeric retry count 1. -/
def mutationsRetry : ℕ := 1

/-- Modelled from the spec: the retry driver itself lives in the React
Query library, not in repository code.  Modelled from the retry policy of
the spec (4.2, 7): attempts are numbered from 0; when attempt i fails the
predicate is consulted with failureCount i, and the first failure it does
not retry is surfaced.  The fuel argument bounds the number of retries and
is instantiated at the configured cap, past which the predicate denies
retry anyway.  The first component of the result is the number of times the
fetch or write function was invoked. -/
def runAttempts (shouldRetry : ℕ → ℕ → Bool) (fetchFn : ℕ → Except ℕ α)
    (i : ℕ) : ℕ → ℕ × Except ℕ α
  | 0 =>
      match fetchFn i with
      | .ok a => (i + 1, .ok a)
      | .error e => (i + 1, .error e)
  | fuel + 1 =>
      match fetchFn i with
      | .ok a => (i + 1, .ok a)
      | .error e =>
          if shouldRetry i e then runAttempts shouldRetry fetchFn (i + 1) fuel
          else (i + 1, .error e)

/-- Modelled from the spec: a mutation dispatched under the default
mutation options invokes writeFn under the numeric retry count
mutationsRetry, that is the predicate failureCount below mutationsRetry. -/
def mutationInvocations (writeFn : ℕ → Except ℕ α) : ℕ × Except ℕ α :=
  runAttempts (fun fc _ => decide (fc < mutationsRetry)) writeFn 0 mutationsRetry

/-- Modelled from the spec: the default retry delay of the engine (the
repository sets none for queries in AppProvider): exponential backoff with
base 1000 ms, factor 2, capped at 30000 ms. -/
def defaultRetryDelay (attemptIndex : ℕ) : ℕ :=
  min (1000 * 2 ^ attemptIndex) 30000

/-- C1 counterexample: the claim says a rejecting writeFn is never
re-invoked, yet under mutations.retry = 1 a write that always rejects with
status 500 is invoked twice, not once. -/
theorem mutation_retried_counterexample :
    (mutationInvocations (fun _ => (Except.error 500 : Except ℕ Unit))).1 ≠ 1 := by
  decide

/-- C1 amended: a mutation whose writeFn rejects is retried exactly once
(mutations.retry = 1): when every invocation rejects, writeFn is invoked
exactly twice and the error of the second invocation is surfaced to the
caller. -/
theorem mutation_retry_once (writeFn : ℕ → Except ℕ Unit)
    (h : ∀ n, ∃ e, writeFn n = .error e) :
    (mutationInvocations writeFn).1 = 2 ∧
    ∃ e, (mutationInvocations writeFn).2 = .error e ∧ writeFn 1 = .error e := by
  obtain ⟨e0, h0⟩ := h 0
  obtain ⟨e1, h1⟩ := h 1
  unfold mutationInvocations mutationsRetry
  simp only [runAttempts, h0, h1]
  norm_num

/-- Witness for C1 amended at the constantly rejecting write with status
500: two invocations, error surfaced. -/
theorem mutation_retry_once_witness :
    (∀ n : ℕ, ∃ e, (fun _ => (Except.error 500 : Except ℕ Unit)) n = .error e) ∧
    ((mutationInvocations (fun _ => (Except.error 500 : Except ℕ Unit))).1 = 2 ∧
      ∃ e, (mutationInvocations
          (fun _ => (Except.error 500 : Except ℕ Unit))).2 = .error e ∧
        (fun _ => (Except.error 500 : Except ℕ Unit)) 1 = .error e) :=
  ⟨fun _ => ⟨500, rfl⟩,
    mutation_retry_once (fun _ => (Except.error 500 : Except ℕ Unit))
      (fun _ => ⟨500, rfl⟩)⟩

/-- C3 counterexample: the claim excepts 429 from the no-4xx-retry rule, so
a first failure with status 429 would be retried; the predicate of
AppProvider returns false for status 429 at failureCount 0. -/
theorem retry_429_counterexample : queriesRetry 0 429 = false := by
  decide

/-- C3 amended: under the default query options, a failed fetch is retried
while failureCount is below 3 exactly when the status is not a 4xx (network
errors carry status 0 and every 5xx falls here); no 4xx status is ever
retried, 429 included; the delay schedule is exponential with base 1000 ms
and factor 2 under the 30000 ms cap; and the error is surfaced only after
retries are exhausted: a fetch always failing with status 500 is attempted
4 times in total before its error is recorded, one always failing with 404
is attempted once. -/
theorem query_retry_policy (fc s : ℕ) :
    (400 ≤ s → s < 500 → queriesRetry fc s = false) ∧
    (s < 400 ∨ 500 ≤ s → (queriesRetry fc s = true ↔ fc < 3)) ∧
    defaultRetryDelay 0 = 1000 ∧
    (∀ i, defaultRetryDelay (i + 1) = min (2 * defaultRetryDelay i) 30000) ∧
    (runAttempts queriesRetry (fun _ => (Except.error 500 : Except ℕ Unit)) 0 3 =
      (4, .error 500)) ∧
    (runAttempts queriesRetry (fun _ => (Except.error 404 : Except ℕ Unit)) 0 3 =
      (1, .error 404)) := by
  refine ⟨?_, ?_, rfl, ?_, rfl, rfl⟩
  · intro ha hb
    simp [queriesRetry, ha, hb]
  · intro hs
    have : ¬(400 ≤ s ∧ s < 500) := by omega
    simp [queriesRetry, this]
  · intro i
    unfold defaultRetryDelay
    rw [pow_succ, ← Nat.mul_assoc, Nat.mul_comm (1000 * 2 ^ i) 2]
    rcases Nat.le_total (1000 * 2 ^ i) 30000 with hle | hle
    · rw [Nat.min_eq_left hle]
    · rw [Nat.min_eq_right hle, Nat.min_eq_right (by omega),
        Nat.min_eq_right (by omega)]

/-- Witness for C3 amended at concrete inputs: a second failure with
status 500 is retried, one with status 404 is not. -/
theorem query_retry_policy_witness :
    queriesRetry 1 404 = false ∧ queriesRetry 1 500 = true :=
  ⟨(query_retry_policy 1 404).1 (by norm_num) (by norm_num),
    ((query_retry_policy 1 500).2.1 (Or.inr (by norm_num))).mpr (by norm_num)⟩

/-! ## Optimistic updates and rollback (src/unnamed/part_006 and part_007)

The react-query cache slice holding the task-list queries is modelled as an
association list from the query key array to the cached list of tasks. -/

/-- Query key array. -/
abbrev QKey := List String

/-- Cache slice of the task-list queries: each existing query entry holds
its data, or none for an entry whose data is still undefined (a pending
query that has not resolved yet). -/
abbrev TaskCache := List (QKey × Option (List Task))

/-- React Query default (non-exact) key matching: the filter key is a
prefix of the entry key. -/
def keyMatches (p k : QKey) : Bool := decide (k.take p.length = p)

/-- The cache entry under the exact key, if one exists. -/
def lookupEntry (key : QKey) (c : TaskCache) :
    Option (QKey × Option (List Task)) :=
  c.find? (fun e => e.1 == key)

/-- queryClient.getQueryData: the data under the exact key; undefined both
when no entry exists and when the entry holds no data yet. -/
def getQueryData (key : QKey) (c : TaskCache) : Option (List Task) :=
  (lookupEntry key c).bind (fun e => e.2)

/-- Replace the data of an entry when its key is the given one. -/
def replaceIfKey (key : QKey) (v : List Task)
    (e : QKey × Option (List Task)) : QKey × Option (List Task) :=
  if e.1 == key then (e.1, some v) else e

/-- queryClient.setQueryData with a plain value: set the data of the entry
under the exact key, creating the entry when absent. -/
def setQueryData (key : QKey) (v : List Task) (c : TaskCache) : TaskCache :=
  if c.any (fun e => e.1 == key) then c.map (replaceIfKey key v)
  else c ++ [(key, some v)]

/-- Apply the updater to an entry when its key matches the filter; the
updater receives the old data, possibly undefined. -/
def patchIfMatches (p : QKey) (f : Option (List Task) → List Task)
    (e : QKey × Option (List Task)) : QKey × Option (List Task) :=
  if keyMatches p e.1 then (e.1, some (f e.2)) else e

/-- queryClient.setQueriesData: apply the updater to every existing entry
whose key matches the filter; no entry is created. -/
def setQueriesData (p : QKey) (f : Option (List Task) → List Task)
    (c : TaskCache) : TaskCache :=
  c.map (patchIfMatches p f)

/-- The optimistic updater of updateTaskStatusMutation: set the status of
the task with the given id over the old data, or write the empty list when
the entry held no data (the fallback of the source updater). -/
def updateTaskStatusPatch (taskId status : String)
    (old : Option (List Task)) : List Task :=
  match old with
  | some l => l.map (fun task =>
      if task.id == taskId then { task with status := status } else task)
  | none => []

/-- onMutate of updateTaskStatusMutation (src/unnamed/part_006): snapshot
the data under the exact tasks key, then optimistically patch every
tasks-prefixed query; the snapshot is the mutation context. -/
def updateTaskStatus_onMutate (taskId status : String) (c : TaskCache) :
    Option (List Task) × TaskCache :=
  (getQueryData ["tasks"] c,
    setQueriesData ["tasks"] (updateTaskStatusPatch taskId status) c)

/-- onError of updateTaskStatusMutation: restore the snapshot, only under
the exact tasks key and only when the snapshot exists. -/
def updateTaskStatus_onError (context : Option (List Task)) (c : TaskCache) :
    TaskCache :=
  match context with
  | some prev => setQueryData ["tasks"] prev c
  | none => c

/-- The cache after a task-status mutation whose writeFn rejected: the
optimistic patch of onMutate followed by the rollback of onError. -/
def updateTaskStatus_rollback (taskId status : String) (c : TaskCache) :
    TaskCache :=
  let r := updateTaskStatus_onMutate taskId status c
  updateTaskStatus_onError r.1 r.2

/-- Agent record as cached under an agents detail key, the fields written
by the optimistic update of useUpdateAgent. -/
structure AgentRec where
  id : String
  status : String
  updatedAt : String
  deriving Repr, DecidableEq

/-- Update payload of useUpdateAgent; only a status change is modelled. -/
structure UpdateAgentData where
  status : Option String
  deriving Repr, DecidableEq

/-- The optimistic merge of useUpdateAgent: spread the update over the
previous agent and stamp updatedAt with the current time. -/
def applyAgentUpdate (prev : AgentRec) (d : UpdateAgentData) (now : String) :
    AgentRec :=
  { prev with status := d.status.getD prev.status, updatedAt := now }

/-- onMutate of useUpdateAgent (src/unnamed/part_007): snapshot the detail
slot; the optimistic update is applied only when a previous value exists. -/
def useUpdateAgent_onMutate (slot : Option AgentRec) (d : UpdateAgentData)
    (now : String) : Option AgentRec × Option AgentRec :=
  (slot,
    match slot with
    | some prev => some (applyAgentUpdate prev d now)
    | none => slot)

/-- onError of useUpdateAgent: restore the snapshot when it exists. -/
def useUpdateAgent_onError (context : Option AgentRec)
    (slot : Option AgentRec) : Option AgentRec :=
  match context with
  | some prev => some prev
  | none => slot

/-- The agents detail slot after a useUpdateAgent mutation whose writeFn
rejected. -/
def useUpdateAgent_rollback (slot : Option AgentRec) (d : UpdateAgentData)
    (now : String) : Option AgentRec :=
  let r := useUpdateAgent_onMutate slot d now
  useUpdateAgent_onError r.1 r.2

/-- The optimistic updater of updateAgentStatusMutation
(src/unnamed/part_006): map over the cached agents, or write an empty list
when the key held no data. -/
def updateAgentStatusPatch (agentId status : String)
    (old : Option (List AgentRec)) : List AgentRec :=
  match old with
  | some l => l.map (fun a => if a.id == agentId then { a with status := status }
      else a)
  | none => []

/-- onMutate of updateAgentStatusMutation: snapshot the agents key, then
set it to the patched value (setQueryData with an updater creates the
entry). -/
def updateAgentStatus_onMutate (agentId status : String)
    (slot : Option (List AgentRec)) :
    Option (List AgentRec) × Option (List AgentRec) :=
  (slot, some (updateAgentStatusPatch agentId status slot))

/-- onError of updateAgentStatusMutation: restore the snapshot when it
exists. -/
def updateAgentStatus_onError (context : Option (List AgentRec))
    (slot : Option (List AgentRec)) : Option (List AgentRec) :=
  match context with
  | some prev => some prev
  | none => slot

/-- The agents slot after an updateAgentStatusMutation whose writeFn
rejected. -/
def updateAgentStatus_rollback (agentId status : String)
    (slot : Option (List AgentRec)) : Option (List AgentRec) :=
  let r := updateAgentStatus_onMutate agentId status slot
  updateAgentStatus_onError r.1 r.2

theorem replaceIfKey_pos (k : QKey) (v : List Task)
    (e : QKey × Option (List Task)) (he : (e.1 == k) = true) :
    replaceIfKey k v e = (e.1, some v) := by
  simp [replaceIfKey, he]

theorem replaceIfKey_neg (k : QKey) (v : List Task)
    (e : QKey × Option (List Task)) (he : (e.1 == k) = false) :
    replaceIfKey k v e = e := by
  simp [replaceIfKey, he]

theorem patchIfMatches_fst (p : QKey) (f : Option (List Task) → List Task)
    (e : QKey × Option (List Task)) : (patchIfMatches p f e).1 = e.1 := by
  unfold patchIfMatches
  split <;> rfl

theorem keyMatches_self (k : QKey) : keyMatches k k = true := by
  simp [keyMatches]

theorem getQueryData_cons_pos (k : QKey) (e : QKey × Option (List Task))
    (c : TaskCache) (he : (e.1 == k) = true) :
    getQueryData k (e :: c) = e.2 := by
  unfold getQueryData lookupEntry
  simp [List.find?_cons, he]

theorem getQueryData_cons_neg (k : QKey) (e : QKey × Option (List Task))
    (c : TaskCache) (he : (e.1 == k) = false) :
    getQueryData k (e :: c) = getQueryData k c := by
  unfold getQueryData lookupEntry
  simp [List.find?_cons, he]

theorem getQueryData_map_set (k : QKey) (v : List Task) (c : TaskCache)
    (h : c.any (fun e => e.1 == k) = true) :
    getQueryData k (c.map (replaceIfKey k v)) = some v := by
  induction c with
  | nil => simp at h
  | cons e rest ih =>
      rw [List.map_cons]
      cases he : (e.1 == k) with
      | true =>
          rw [replaceIfKey_pos k v e he,
            getQueryData_cons_pos k (e.1, some v) _ (by simpa using he)]
      | false =>
          have hrest : rest.any (fun e => e.1 == k) = true := by
            simpa [he] using h
          rw [replaceIfKey_neg k v e he, getQueryData_cons_neg k _ _ he]
          exact ih hrest

theorem getQueryData_append_new (k : QKey) (v : List Task) (c : TaskCache)
    (h : c.any (fun e => e.1 == k) = false) :
    getQueryData k (c ++ [(k, some v)]) = some v := by
  induction c with
  | nil => simp [getQueryData, lookupEntry]
  | cons e rest ih =>
      have he : (e.1 == k) = false := by
        simpa using List.any_eq_false.mp h e (by simp)
      have hrest : rest.any (fun e => e.1 == k) = false := by
        refine List.any_eq_false.mpr (fun x hx => ?_)
        exact List.any_eq_false.mp h x (by simp [hx])
      rw [List.cons_append, getQueryData_cons_neg k _ _ he]
      exact ih hrest

theorem getQueryData_setQueryData (k : QKey) (v : List Task) (c : TaskCache) :
    getQueryData k (setQueryData k v c) = some v := by
  unfold setQueryData
  cases ha : c.any (fun e => e.1 == k) with
  | true =>
      rw [if_pos (by simp [ha])]
      exact getQueryData_map_set k v c ha
  | false =>
      rw [if_neg (by simp [ha])]
      exact getQueryData_append_new k v c ha

theorem lookupEntry_setQueriesData (k p : QKey)
    (f : Option (List Task) → List Task) (c : TaskCache) :
    lookupEntry k (setQueriesData p f c) =
      (lookupEntry k c).map (patchIfMatches p f) := by
  induction c with
  | nil => rfl
  | cons e rest ih =>
      rw [setQueriesData, List.map_cons]
      cases he : (e.1 == k) with
      | true =>
          have hfst : ((patchIfMatches p f e).1 == k) = true := by
            rw [patchIfMatches_fst]
            exact he
          unfold lookupEntry
          simp [List.find?_cons, he, hfst]
      | false =>
          have hfst : ((patchIfMatches p f e).1 == k) = false := by
            rw [patchIfMatches_fst]
            exact he
          unfold lookupEntry
          simp only [List.find?_cons, he, hfst]
          simpa [lookupEntry, setQueriesData] using ih

/-- C2 counterexample: a cache holding the base tasks query and a filtered
tasks query, both containing task 1 with status running.  The optimistic
patch of updateTaskStatusMutation rewrites both entries to status done, but
the rollback restores only the exact tasks key: after a rejected write the
filtered entry still holds the optimistic value, not the pre-mutation
snapshot. -/
theorem rollback_atomicity_counterexample :
    getQueryData ["tasks", "running"]
        (updateTaskStatus_rollback "1" "done"
          [(["tasks"], some [⟨"1", "a", "running", 0⟩]),
            (["tasks", "running"], some [⟨"1", "a", "running", 0⟩])]) ≠
      getQueryData ["tasks", "running"]
        [(["tasks"], some [⟨"1", "a", "running", 0⟩]),
          (["tasks", "running"], some [⟨"1", "a", "running", 0⟩])] := by
  decide

/-- C2 amended: after a mutation whose writeFn rejects, only the exact
snapshotted key is restored, and only when a snapshot existed: the base
tasks key of updateTaskStatusMutation regains its pre-mutation value when
it held data, stays absent when no entry existed, but a pending tasks
entry whose data was still undefined is left holding the empty list
written by the patch (other keys touched by the patch keep the optimistic
value); the agents detail slot of useUpdateAgent is always fully restored
(its patch applies only when a snapshot exists); the agents key of
updateAgentStatusMutation is restored when it held data before the
mutation, but when it held none the slot ends holding the empty list
written by the patch. -/
theorem rollback_restores_snapshot_key :
    (∀ (c : TaskCache) (taskId status : String) (v : List Task),
      getQueryData ["tasks"] c = some v →
      getQueryData ["tasks"] (updateTaskStatus_rollback taskId status c) =
        some v) ∧
    (∀ (c : TaskCache) (taskId status : String),
      lookupEntry ["tasks"] c = none →
      getQueryData ["tasks"] (updateTaskStatus_rollback taskId status c) =
        none) ∧
    (∀ (c : TaskCache) (taskId status : String) (k : QKey),
      lookupEntry ["tasks"] c = some (k, none) →
      getQueryData ["tasks"] (updateTaskStatus_rollback taskId status c) =
        some []) ∧
    (∀ (slot : Option AgentRec) (d : UpdateAgentData) (now : String),
      useUpdateAgent_rollback slot d now = slot) ∧
    (∀ (l : List AgentRec) (agentId status : String),
      updateAgentStatus_rollback agentId status (some l) = some l) ∧
    (∀ (agentId status : String),
      updateAgentStatus_rollback agentId status none = some []) := by
  refine ⟨?_, ?_, ?_, ?_, fun l agentId status => rfl,
    fun agentId status => rfl⟩
  · intro c taskId status v h
    simp only [updateTaskStatus_rollback, updateTaskStatus_onMutate,
      updateTaskStatus_onError, h]
    exact getQueryData_setQueryData _ v _
  · intro c taskId status h
    have hg : getQueryData ["tasks"] c = none := by
      unfold getQueryData
      rw [h]
      rfl
    simp only [updateTaskStatus_rollback, updateTaskStatus_onMutate,
      updateTaskStatus_onError, hg]
    unfold getQueryData
    rw [lookupEntry_setQueriesData, h]
    rfl
  · intro c taskId status k h
    have hk : k = ["tasks"] := by
      have hfind := List.find?_some (by simpa [lookupEntry] using h)
      simpa using hfind
    subst hk
    have hg : getQueryData ["tasks"] c = none := by
      unfold getQueryData
      rw [h]
      rfl
    simp only [updateTaskStatus_rollback, updateTaskStatus_onMutate,
      updateTaskStatus_onError, hg]
    unfold getQueryData
    rw [lookupEntry_setQueriesData, h]
    simp [patchIfMatches, keyMatches_self, updateTaskStatusPatch]
  · intro slot d now
    cases slot <;> rfl

/-- Witness for C2 amended at concrete caches: a base tasks entry holding
data is restored to it, and a pending base tasks entry without data ends
holding the empty list. -/
theorem rollback_restores_snapshot_key_witness :
    getQueryData ["tasks"]
        (updateTaskStatus_rollback "1" "done"
          [(["tasks"], some [⟨"1", "a", "running", 0⟩])]) =
      some [⟨"1", "a", "running", 0⟩] ∧
    getQueryData ["tasks"]
        (updateTaskStatus_rollback "1" "done" [(["tasks"], none)]) =
      some [] :=
  ⟨rollback_restores_snapshot_key.1 _ "1" "done" _ (by decide),
    rollback_restores_snapshot_key.2.2.1 _ "1" "done" ["tasks"] (by decide)⟩

/-! ## Logout and 401 handling (src/stores/useAuthStore.ts,
src/unnamed/part_009, src/services/api.ts) -/

/-- Client state touched by the logout and 401 paths: the localStorage auth
slice, the auth store, the useSession local state, whether a redirect to
the login page has been scheduled, and the react-query resource cache. -/
structure ClientState where
  authToken : Option String
  refreshToken : Option String
  userData : Option String
  isAuthenticated : Bool
  user : Option String
  authError : Option String
  authLoading : Bool
  sessionAuthenticated : Bool
  sessionUser : Option String
  redirectScheduled : Bool
  queryCache : TaskCache
  deriving Repr, DecidableEq

/-- Translation of useAuthStore.actions.logout (src/stores/useAuthStore.ts,
lines 128-140): reset the auth store fields and remove the three auth keys
from localStorage.  The react-query cache is not touched. -/
def authStoreLogout (s : ClientState) : ClientState :=
  { s with
    isAuthenticated := false
    user := none
    authError := none
    authLoading := false
    authToken := none
    refreshToken := none
    userData := none }

/-- Translation of apiService.clearAuthToken (src/services/api.ts): remove
the three auth keys from localStorage. -/
def clearAuthToken (s : ClientState) : ClientState :=
  { s with authToken := none, refreshToken := none, userData := none }

/-- Translation of logoutSession (src/unnamed/part_009, lines 231-248):
clear the session state, run the store logout, clear the tokens.  No step
clears the react-query cache (the clearCache helper of part_006 exists but
is not invoked on this path). -/
def logoutSession (s : ClientState) : ClientState :=
  clearAuthToken (authStoreLogout
    { s with sessionAuthenticated := false, sessionUser := none })

/-- Translation of handleUnauthorized (src/services/api.ts, lines 269-286),
run on any 401 response: remove the three auth keys and schedule a redirect
to the login page two seconds later.  Neither the auth store nor the
react-query cache is touched. -/
def handleUnauthorized (s : ClientState) : ClientState :=
  { s with
    authToken := none
    refreshToken := none
    userData := none
    redirectScheduled := true }

/-- C4 counterexample: a logged-in state with one cached tasks query; after
logoutSession runs, that query entry of the previous session is still
readable from the cache, while the claim says none remains. -/
theorem logout_cache_counterexample :
    getQueryData ["tasks"]
        (logoutSession
          { authToken := some "t", refreshToken := some "r",
            userData := some "u", isAuthenticated := true, user := some "u1",
            authError := none, authLoading := false,
            sessionAuthenticated := true, sessionUser := some "u1",
            redirectScheduled := false,
            queryCache := [(["tasks"], some [⟨"1", "a", "running", 0⟩])] }).queryCache ≠
      none := by
  decide

/-- C4 amended: on logout the session and auth store state are reset and
the three auth keys are removed from localStorage synchronously; on a 401
the auth keys are removed and a redirect to the login page is scheduled;
neither path clears the resource cache, which is left exactly as it was, so
cached query entries of the previous session remain readable. -/
theorem logout_clears_auth_not_cache (s : ClientState) :
    (logoutSession s).authToken = none ∧
    (logoutSession s).refreshToken = none ∧
    (logoutSession s).userData = none ∧
    (logoutSession s).isAuthenticated = false ∧
    (logoutSession s).user = none ∧
    (logoutSession s).sessionAuthenticated = false ∧
    (logoutSession s).queryCache = s.queryCache ∧
    (handleUnauthorized s).authToken = none ∧
    (handleUnauthorized s).refreshToken = none ∧
    (handleUnauthorized s).userData = none ∧
    (handleUnauthorized s).redirectScheduled = true ∧
    (handleUnauthorized s).queryCache = s.queryCache := by
  refine ⟨rfl, rfl, rfl, rfl, rfl, rfl, rfl, rfl, rfl, rfl, rfl, rfl⟩

/-! ## Stale-while-revalidate (spec sections 3 and 4.2; configuration from
src/unnamed/part_007, useAgents) -/

/-- Fetch status of a resource cache entry (spec section 3). -/
inductive QStatus
  | idle
  | fetching
  | success
  | errored
  deriving Repr, DecidableEq

/-- Resource cache entry: data, status, fetch timestamp and per-entry
staleness window, times in milliseconds. -/
structure ResourceEntry (α : Type) where
  data : Option α
  status : QStatus
  fetchedAt : Option ℕ
  staleAfter : ℕ
  deriving Repr, DecidableEq

/-- An entry is stale iff now - fetchedAt exceeds staleAfter (spec section
3); an entry without a timestamp counts as stale. -/
def isStale (now : ℕ) (e : ResourceEntry α) : Bool :=
  match e.fetchedAt with
  | some t => decide (now - t > e.staleAfter)
  | none => true

/-- Modelled from the spec: ensureFresh of the fetch coordinator (spec
section 4.2, steps 1 to 3) is implemented by the React Query library, not
by repository code.  A fetching entry returns the in-flight state
unchanged; a fresh success returns the cached data with no fetch; anything
else returns the current data synchronously and marks the entry fetching
while retaining the old data. -/
def ensureFresh (now : ℕ) (e : ResourceEntry α) : Option α × ResourceEntry α :=
  match e.status with
  | .fetching => (e.data, e)
  | .success =>
      if isStale now e then (e.data, { e with status := .fetching })
      else (e.data, e)
  | _ => (e.data, { e with status := .fetching })

/-- The staleTime configured on useAgents (src/unnamed/part_007): 5
minutes. -/
def agentsStaleTime : ℕ := 5 * 60 * 1000

/-- C6: a success entry whose age exceeds its staleness window, asked for
via ensureFresh, synchronously yields its cached data while the entry moves
to fetching with the stale data still present, so it remains visible until
the refetch completes. -/
theorem stale_while_revalidate {α : Type} (e : ResourceEntry α) (now t : ℕ)
    (d : α) (hs : e.status = .success) (hd : e.data = some d)
    (ht : e.fetchedAt = some t) (hstale : now - t > e.staleAfter) :
    (ensureFresh now e).1 = some d ∧
    (ensureFresh now e).2.status = .fetching ∧
    (ensureFresh now e).2.data = some d := by
  have hst : isStale now e = true := by simp [isStale, ht, hstale]
  simp [ensureFresh, hs, hst, hd]

/-- Witness for C6: a success entry fetched at time 0 under the useAgents
staleness window, requested just past the window. -/
theorem stale_while_revalidate_witness :
    (ensureFresh 300001 (⟨some 42, .success, some 0, agentsStaleTime⟩ :
        ResourceEntry ℕ)).1 = some 42 ∧
    (ensureFresh 300001 (⟨some 42, .success, some 0, agentsStaleTime⟩ :
        ResourceEntry ℕ)).2.status = .fetching ∧
    (ensureFresh 300001 (⟨some 42, .success, some 0, agentsStaleTime⟩ :
        ResourceEntry ℕ)).2.data = some 42 :=
  stale_while_revalidate _ 300001 0 42 rfl rfl rfl
    (by norm_num [agentsStaleTime])

/-! ## Polling configuration (src/unnamed/part_006) -/

/-- Timing options a hook passes to useQuery. -/
structure QueryTimingConfig where
  staleTime : ℕ
  gcTime : ℕ
  refetchInterval : Option ℕ
  deriving Repr, DecidableEq

/-- Timing options of useOptimizedDashboardStats (src/unnamed/part_006,
lines 223-241): staleTime one minute, gcTime five minutes, refetchInterval
sixty seconds. -/
def dashboardStatsConfig : QueryTimingConfig :=
  { staleTime := 1 * 60 * 1000, gcTime := 5 * 60 * 1000,
    refetchInterval := some (60 * 1000) }

/-- Timing options of useOptimizedTasks (src/unnamed/part_006, lines
146-171): staleTime two minutes, gcTime five minutes, refetchInterval
thirty seconds. -/
def optimizedTasksConfig : QueryTimingConfig :=
  { staleTime := 2 * 60 * 1000, gcTime := 5 * 60 * 1000,
    refetchInterval := some (30 * 1000) }

/-- Modelled from the spec: the polling scheduler driving refetchInterval
is the React Query library, not repository code.  While a key has at least
one subscriber the next background refetch is due one period after the
previous fetch; with no subscriber none is scheduled. -/
def nextPollDue (interval lastFetch subscriberCount : ℕ) : Option ℕ :=
  if 0 < subscriberCount then some (lastFetch + interval) else none

/-- C7 counterexample: the claim puts the default polling period for the
dashboard stats at 30 seconds; the refetchInterval configured on
useOptimizedDashboardStats is 60 seconds. -/
theorem stats_poll_interval_counterexample :
    dashboardStatsConfig.refetchInterval ≠ some (30 * 1000) := by
  decide

/-- C7 amended: while a live key has at least one subscriber a background
refetch is scheduled at a fixed period after the previous fetch, and none
is scheduled without subscribers; the period configured for the dashboard
stats is 60 seconds and the one for the task lists is 30 seconds. -/
theorem live_polling_config :
    dashboardStatsConfig.refetchInterval = some 60000 ∧
    optimizedTasksConfig.refetchInterval = some 30000 ∧
    (∀ last n, 0 < n → nextPollDue 60000 last n = some (last + 60000)) ∧
    (∀ interval last, nextPollDue interval last 0 = none) := by
  refine ⟨rfl, rfl, fun last n hn => ?_, fun interval last => rfl⟩
  simp [nextPollDue, hn]

/-- Witness for C7 amended: with one subscriber and a fetch at time 0 the
next stats refetch is due at 60000 ms. -/
theorem live_polling_config_witness :
    nextPollDue 60000 0 1 = some 60000 := by
  simpa using live_polling_config.2.2.1 0 1 (by norm_num)

end Intuitivus
